import Mathlib

/-!
Verification of the VTU ECU simulator (ecu_sim.c) and its CAN signal
definitions (can_defs.h).  C `float` values are embedded as exact rationals
(`ℚ`); C float-to-unsigned casts truncate toward zero and, when the value
exceeds the target width, are modelled as reduction modulo `2^w` (the C
standard leaves the out-of-range case undefined; in-range values are
unaffected by the modulus).  Machine integers are `ℕ`/`ℤ` with explicit
`% 2^w` where overflow matters.
-/

namespace VTU

/-- The simulated vehicle state, from the `vehicle` struct in ecu_sim.c.
Floats are modelled as `ℚ`, `int gear` as `ℤ`, `uint32_t odometer` as `ℕ`
(kept below `2^32` by the encode/update modelling). -/
structure Vehicle where
  rpm : ℚ
  coolant_temp : ℚ
  throttle : ℚ
  maf : ℚ
  engine_load : ℚ
  intake_temp : ℚ
  gear : ℤ
  trans_temp : ℚ
  fuel_level : ℚ
  odometer : ℕ
  vehicle_speed : ℚ
  sim_time : ℚ
deriving Repr, DecidableEq

/-- Initial value of the `vehicle` struct in ecu_sim.c. -/
def init_vehicle : Vehicle :=
  { rpm := 800, coolant_temp := 85, throttle := 15, maf := 5
  , engine_load := 20, intake_temp := 25, gear := 0, trans_temp := 60
  , fuel_level := 75, odometer := 45231, vehicle_speed := 0, sim_time := 0 }

/-- C cast `(uint8_t)x` of a nonnegative float `x`: truncate toward zero
(floor for nonnegative values), then reduce modulo `2^8`. -/
def c_u8 (x : ℚ) : ℕ := (⌊x⌋).toNat % 256

/-- C cast `(uint16_t)x` of a nonnegative float `x`. -/
def c_u16 (x : ℚ) : ℕ := (⌊x⌋).toNat % 65536

/-- C cast `(uint32_t)x` of a nonnegative float `x`. -/
def c_u32 (x : ℚ) : ℕ := (⌊x⌋).toNat % 4294967296

/-- C conversion `(uint8_t)g` of an `int`: reduction modulo `2^8`. -/
def int_u8 (g : ℤ) : ℕ := (g % 256).toNat

/-- A classic CAN frame: identifier, DLC and payload bytes
(struct can_frame as used by ecu_sim.c). -/
structure canFrame where
  can_id : ℕ
  can_dlc : ℕ
  data : List ℕ
deriving Repr, DecidableEq

/-! ### Broadcast encoders (ecu_sim.c) -/

/-- Payload built by `send_engine_data_1` in ecu_sim.c:
bytes 0-1 RPM raw (rpm / 0.25, big-endian u16), byte 2 coolant (+40),
byte 3 throttle (*255/100), bytes 4-5 MAF raw (maf / 0.01), byte 6 load
(*255/100), byte 7 zero. -/
def send_engine_data_1 (v : Vehicle) : List ℕ :=
  [ c_u16 (v.rpm / 0.25) / 256 % 256
  , c_u16 (v.rpm / 0.25) % 256
  , c_u8 (v.coolant_temp + 40)
  , c_u8 (v.throttle * 255 / 100)
  , c_u16 (v.maf / 0.01) / 256 % 256
  , c_u16 (v.maf / 0.01) % 256
  , c_u8 (v.engine_load * 255 / 100)
  , 0 ]

/-- Payload built by `send_trans_data` in ecu_sim.c: byte 0 gear,
byte 1 fluid temp (+40), bytes 2-3 vehicle speed (big-endian u16). -/
def send_trans_data (v : Vehicle) : List ℕ :=
  [ int_u8 v.gear
  , c_u8 (v.trans_temp + 40)
  , c_u16 v.vehicle_speed / 256 % 256
  , c_u16 v.vehicle_speed % 256
  , 0, 0, 0, 0 ]

/-- Payload built by `send_bcm_data` in ecu_sim.c: byte 0 fuel level
(*255/100), bytes 1-4 odometer (big-endian u32). -/
def send_bcm_data (v : Vehicle) : List ℕ :=
  [ c_u8 (v.fuel_level * 255 / 100)
  , v.odometer / 16777216 % 256
  , v.odometer / 65536 % 256
  , v.odometer / 256 % 256
  , v.odometer % 256
  , 0, 0, 0 ]

/-! ### Decoders (can_defs.h signal extraction macros) -/

/-- Macro CAN_GET_U16_BE from can_defs.h. -/
def CAN_GET_U16_BE (data : List ℕ) (off : ℕ) : ℕ :=
  data.getD off 0 * 256 + data.getD (off + 1) 0

/-- Macro CAN_GET_U8 from can_defs.h. -/
def CAN_GET_U8 (data : List ℕ) (off : ℕ) : ℕ := data.getD off 0

/-- Macro ENGINE1_GET_RPM from can_defs.h (raw * 0.25). -/
def ENGINE1_GET_RPM (data : List ℕ) : ℚ := (CAN_GET_U16_BE data 0 : ℚ) * 0.25

/-- Macro ENGINE1_GET_COOLANT from can_defs.h (raw - 40). -/
def ENGINE1_GET_COOLANT (data : List ℕ) : ℤ := (CAN_GET_U8 data 2 : ℤ) - 40

/-- Macro ENGINE1_GET_THROTTLE from can_defs.h (raw * 0.392157). -/
def ENGINE1_GET_THROTTLE (data : List ℕ) : ℚ := (CAN_GET_U8 data 3 : ℚ) * 0.392157

/-- Macro ENGINE1_GET_MAF from can_defs.h (raw * 0.01). -/
def ENGINE1_GET_MAF (data : List ℕ) : ℚ := (CAN_GET_U16_BE data 4 : ℚ) * 0.01

/-- Macro TRANS_GET_GEAR from can_defs.h. -/
def TRANS_GET_GEAR (data : List ℕ) : ℕ := CAN_GET_U8 data 0

/-- Macro TRANS_GET_FLUID_TEMP from can_defs.h (raw - 40). -/
def TRANS_GET_FLUID_TEMP (data : List ℕ) : ℤ := (CAN_GET_U8 data 1 : ℤ) - 40

/-- Macro TRANS_GET_OUTPUT_RPM from can_defs.h (bytes 2-3, carries the
vehicle speed written by send_trans_data). -/
def TRANS_GET_OUTPUT_RPM (data : List ℕ) : ℕ := CAN_GET_U16_BE data 2

/-- Modelled from the spec: can_defs.h declares ENGINE_DATA_1 byte 6 as
reserved and provides no engine-load decode macro; the spec codec table
(§4.2) gives decode rule load = raw * 100/255 for that byte. -/
def ENGINE1_GET_LOAD (data : List ℕ) : ℚ := (CAN_GET_U8 data 6 : ℚ) * 100 / 255

/-- Modelled from the spec: no BCM decode macros exist in can_defs.h; the
spec codec table (§4.2) gives decode rule fuel = raw * 100/255 for BCM
byte 0. -/
def BCM_GET_FUEL (data : List ℕ) : ℚ := (CAN_GET_U8 data 0 : ℚ) * 100 / 255

/-- Modelled from the spec: no BCM decode macros exist in can_defs.h; the
spec codec table (§4.2) gives decode rule odometer = raw for BCM bytes 1-4
(big-endian u32). -/
def BCM_GET_ODOMETER (data : List ℕ) : ℕ :=
  data.getD 1 0 * 16777216 + data.getD 2 0 * 65536 +
  data.getD 3 0 * 256 + data.getD 4 0

/-! ### OBD-II diagnostic handler (ecu_sim.c) -/

/-- Function `handle_obd2_mode01` in ecu_sim.c.  The response array is
zero-initialised, `response[1] = 0x41` and `response[2] = pid` before the
switch on `pid`; each `case` fills the data bytes and the length; the
`default` case overwrites bytes 1-3 with the negative response
`0x7F, 0x01, 0x12`.  Every branch sets `len > 0`, so exactly one frame is
sent, always on identifier 0x7E8 (CAN_ID_OBD_RESP_ENGINE); the function
never writes the vehicle state.  Result: (identifier, payload of the sent
frame). -/
def handle_obd2_mode01 (v : Vehicle) (pid : ℕ) : ℕ × List ℕ :=
  if pid = 0x00 then
    (0x7E8, [6, 0x41, pid, 0x18, 0x3E, 0x80, 0x00])
  else if pid = 0x04 then
    (0x7E8, [3, 0x41, pid, c_u8 (v.engine_load * 255 / 100)])
  else if pid = 0x05 then
    (0x7E8, [3, 0x41, pid, c_u8 (v.coolant_temp + 40)])
  else if pid = 0x0C then
    (0x7E8, [4, 0x41, pid, c_u16 (v.rpm * 4) / 256 % 256, c_u16 (v.rpm * 4) % 256])
  else if pid = 0x0D then
    (0x7E8, [3, 0x41, pid, c_u8 v.vehicle_speed])
  else if pid = 0x0F then
    (0x7E8, [3, 0x41, pid, c_u8 (v.intake_temp + 40)])
  else if pid = 0x10 then
    (0x7E8, [4, 0x41, pid, c_u16 (v.maf * 100) / 256 % 256, c_u16 (v.maf * 100) % 256])
  else if pid = 0x11 then
    (0x7E8, [3, 0x41, pid, c_u8 (v.throttle * 255 / 100)])
  else if pid = 0x2F then
    (0x7E8, [3, 0x41, pid, c_u8 (v.fuel_level * 255 / 100)])
  else
    (0x7E8, [3, 0x7F, 0x01, 0x12])

/-- Function `process_obd2_request` in ecu_sim.c.  Frames whose identifier
is neither 0x7DF (CAN_ID_OBD_BROADCAST) nor 0x7E0 (CAN_ID_OBD_ECU_ENGINE)
are ignored, as are frames with fewer than 2 payload bytes; the mode is
`data[1]`, the PID is `data[2]` when present and 0 otherwise; only mode
0x01 is dispatched, every other mode falls to the silent `default`.
The function never writes the vehicle state; `none` means no frame sent. -/
def process_obd2_request (v : Vehicle) (f : canFrame) : Option (ℕ × List ℕ) :=
  if f.can_id = 0x7DF ∨ f.can_id = 0x7E0 then
    if f.can_dlc < 2 then none
    else
      let mode := f.data.getD 1 0
      let pid := if 3 ≤ f.can_dlc then f.data.getD 2 0 else 0
      if mode = 0x01 then some (handle_obd2_mode01 v pid) else none
  else none

/-! ### Vehicle simulation (update_simulation in ecu_sim.c)

The C code calls `fmodf` and `sinf`.  `fmodf x y` for `x ≥ 0 < y` equals
`x - y * ⌊x / y⌋`; the sine is kept abstract as a parameter `s : ℚ → ℚ`
about which only `∀ x, |s x| ≤ 1` is ever assumed (true of `sinf`).
The C body assigns rpm/throttle/speed/gear inside one four-way `if` on
`cycle`; here each field is a separate function of the same `cycle`
discriminant, with identical branch conditions. -/

/-- C `fmodf x y` for nonnegative `x` and positive `y` (the only use sites:
`fmodf(sim_time, 60)` and `fmodf(sim_time*0.01, 50)` with sim_time ≥ 0). -/
def fmodQ (x y : ℚ) : ℚ := x - y * ⌊x / y⌋

/-- The rpm assignment of `update_simulation`, by driving-cycle phase. -/
def sim_rpm (s : ℚ → ℚ) (t cycle : ℚ) : ℚ :=
  if cycle < 10 then 800 + 50 * s (t * 2)
  else if cycle < 25 then 800 + 4200 * ((cycle - 10) / 15)
  else if cycle < 45 then 2500 + 200 * s (t * 0.5)
  else 2500 - 1700 * ((cycle - 45) / 15)

/-- The throttle assignment of `update_simulation`, by driving-cycle phase. -/
def sim_throttle (s : ℚ → ℚ) (t cycle : ℚ) : ℚ :=
  if cycle < 10 then 0
  else if cycle < 25 then 30 + 50 * ((cycle - 10) / 15)
  else if cycle < 45 then 25 + 5 * s (t * 0.3)
  else 25 * (1 - (cycle - 45) / 15)

/-- The vehicle_speed assignment of `update_simulation`, by phase. -/
def sim_speed (s : ℚ → ℚ) (t cycle : ℚ) : ℚ :=
  if cycle < 10 then 0
  else if cycle < 25 then 120 * ((cycle - 10) / 15)
  else if cycle < 45 then 100 + 10 * s (t * 0.2)
  else 100 * (1 - (cycle - 45) / 15)

/-- The gear assignment of `update_simulation`, by phase; the C casts
`(int)(progress * 5)` truncate toward zero, which is `⌊·⌋` for the
nonnegative progress values. -/
def sim_gear (cycle : ℚ) : ℤ :=
  if cycle < 10 then 0
  else if cycle < 25 then
    if 1 + ⌊(cycle - 10) / 15 * 5⌋ > 6 then 6 else 1 + ⌊(cycle - 10) / 15 * 5⌋
  else if cycle < 45 then 6
  else
    if 6 - ⌊(cycle - 45) / 15 * 5⌋ < 0 then 0 else 6 - ⌊(cycle - 45) / 15 * 5⌋

/-- The engine_load assignment: `throttle * 0.8 + 10`. -/
def sim_engine_load (s : ℚ → ℚ) (t cycle : ℚ) : ℚ :=
  sim_throttle s t cycle * 0.8 + 10

/-- Function `update_simulation` in ecu_sim.c: advances `sim_time` by `dt`,
recomputes every field from the driving-cycle phase of
`cycle = fmodf(sim_time, 60)`, and accumulates the odometer by the
truncated `speed * dt / 3600` (uint32 arithmetic, hence the `% 2^32`). -/
def update_simulation (s : ℚ → ℚ) (dt : ℚ) (v : Vehicle) : Vehicle :=
  { rpm := sim_rpm s (v.sim_time + dt) (fmodQ (v.sim_time + dt) 60)
  , throttle := sim_throttle s (v.sim_time + dt) (fmodQ (v.sim_time + dt) 60)
  , vehicle_speed := sim_speed s (v.sim_time + dt) (fmodQ (v.sim_time + dt) 60)
  , gear := sim_gear (fmodQ (v.sim_time + dt) 60)
  , engine_load := sim_engine_load s (v.sim_time + dt) (fmodQ (v.sim_time + dt) 60)
  , maf := sim_rpm s (v.sim_time + dt) (fmodQ (v.sim_time + dt) 60) / 1000 *
      (sim_engine_load s (v.sim_time + dt) (fmodQ (v.sim_time + dt) 60) / 100) * 15
  , coolant_temp := 85 + 10 * s ((v.sim_time + dt) * 0.01)
  , trans_temp := 70 + 20 *
      (sim_engine_load s (v.sim_time + dt) (fmodQ (v.sim_time + dt) 60) / 100)
  , intake_temp := 25 + 5 * s ((v.sim_time + dt) * 0.05)
  , fuel_level := 75 - fmodQ ((v.sim_time + dt) * 0.01) 50
  , odometer := (v.odometer +
      c_u32 (sim_speed s (v.sim_time + dt) (fmodQ (v.sim_time + dt) 60) * dt / 3600)) %
      4294967296
  , sim_time := v.sim_time + dt }

/-- The bound part of claim C5: each physical field within its declared
range, gear one of 0..7, plus the bookkeeping facts (`sim_time ≥ 0`,
odometer below `2^32`) that the tick preserves. -/
def inBounds (v : Vehicle) : Prop :=
  0 ≤ v.sim_time ∧
  0 ≤ v.rpm ∧ v.rpm ≤ 16383.75 ∧
  0 ≤ v.throttle ∧ v.throttle ≤ 100 ∧
  0 ≤ v.engine_load ∧ v.engine_load ≤ 100 ∧
  0 ≤ v.fuel_level ∧ v.fuel_level ≤ 100 ∧
  0 ≤ v.vehicle_speed ∧ v.vehicle_speed ≤ 255 ∧
  0 ≤ v.gear ∧ v.gear ≤ 7 ∧
  v.odometer < 4294967296

/-- In-range states for the round-trip claim C4: every field within the
declared range of its payload encoding (spec §3 and can_defs.h comments). -/
def inRangeState (v : Vehicle) : Prop :=
  0 ≤ v.rpm ∧ v.rpm ≤ 16383.75 ∧
  -40 ≤ v.coolant_temp ∧ v.coolant_temp ≤ 215 ∧
  0 ≤ v.throttle ∧ v.throttle ≤ 100 ∧
  0 ≤ v.maf ∧ v.maf ≤ 655.35 ∧
  0 ≤ v.engine_load ∧ v.engine_load ≤ 100 ∧
  0 ≤ v.gear ∧ v.gear ≤ 7 ∧
  -40 ≤ v.trans_temp ∧ v.trans_temp ≤ 215 ∧
  0 ≤ v.fuel_level ∧ v.fuel_level ≤ 100 ∧
  v.odometer < 4294967296 ∧
  0 ≤ v.vehicle_speed ∧ v.vehicle_speed ≤ 255

/-- The all-zero stand-in for `sinf` used to instantiate witnesses; it
satisfies the only assumption made of the sine, `∀ x, |s x| ≤ 1`. -/
def zero_wave : ℚ → ℚ := fun _ => 0

/-! ### Arithmetic helper lemmas -/

lemma fmodQ_nonneg (x : ℚ) {y : ℚ} (hy : 0 < y) : 0 ≤ fmodQ x y := by
  rw [fmodQ, sub_nonneg, mul_comm]
  calc ((⌊x / y⌋ : ℚ)) * y ≤ x / y * y :=
        mul_le_mul_of_nonneg_right (Int.floor_le _) hy.le
    _ = x := div_mul_cancel₀ x hy.ne'

lemma fmodQ_lt (x : ℚ) {y : ℚ} (hy : 0 < y) : fmodQ x y < y := by
  rw [fmodQ, sub_lt_iff_lt_add]
  calc x = x / y * y := (div_mul_cancel₀ x hy.ne').symm
    _ < ((⌊x / y⌋ : ℚ) + 1) * y :=
        mul_lt_mul_of_pos_right (Int.lt_floor_add_one _) hy
    _ = y + y * ⌊x / y⌋ := by ring

lemma fmodQ_eq_self {x y : ℚ} (h0 : 0 ≤ x) (hxy : x < y) : fmodQ x y = x := by
  have hy : 0 < y := lt_of_le_of_lt h0 hxy
  have hz : ⌊x / y⌋ = 0 := by
    rw [Int.floor_eq_zero_iff]
    exact ⟨div_nonneg h0 hy.le, (div_lt_one hy).mpr hxy⟩
  rw [fmodQ, hz]
  push_cast
  ring

lemma floor_toNat_mod_cast {x : ℚ} {m : ℕ} (h0 : 0 ≤ x) (h1 : x < (m : ℚ)) :
    (((⌊x⌋).toNat % m : ℕ) : ℤ) = ⌊x⌋ := by
  have hf0 : 0 ≤ ⌊x⌋ := Int.floor_nonneg.mpr h0
  have hf1 : ⌊x⌋ < (m : ℤ) := Int.floor_lt.mpr (by exact_mod_cast h1)
  have hlt : (⌊x⌋).toNat < m := by omega
  rw [Nat.mod_eq_of_lt hlt]
  omega

lemma c_u8_cast {x : ℚ} (h0 : 0 ≤ x) (h1 : x < 256) : ((c_u8 x : ℕ) : ℤ) = ⌊x⌋ := by
  unfold c_u8
  exact floor_toNat_mod_cast h0 (by exact_mod_cast h1)

lemma c_u16_cast {x : ℚ} (h0 : 0 ≤ x) (h1 : x < 65536) : ((c_u16 x : ℕ) : ℤ) = ⌊x⌋ := by
  unfold c_u16
  exact floor_toNat_mod_cast h0 (by exact_mod_cast h1)

lemma c_u8_bounds {x : ℚ} (h0 : 0 ≤ x) (h1 : x < 256) :
    ((c_u8 x : ℕ) : ℚ) ≤ x ∧ x - 1 < ((c_u8 x : ℕ) : ℚ) := by
  have hc : ((c_u8 x : ℕ) : ℚ) = ((⌊x⌋ : ℤ) : ℚ) := by exact_mod_cast c_u8_cast h0 h1
  exact ⟨hc ▸ Int.floor_le x, hc ▸ Int.sub_one_lt_floor x⟩

lemma c_u16_bounds {x : ℚ} (h0 : 0 ≤ x) (h1 : x < 65536) :
    ((c_u16 x : ℕ) : ℚ) ≤ x ∧ x - 1 < ((c_u16 x : ℕ) : ℚ) := by
  have hc : ((c_u16 x : ℕ) : ℚ) = ((⌊x⌋ : ℤ) : ℚ) := by exact_mod_cast c_u16_cast h0 h1
  exact ⟨hc ▸ Int.floor_le x, hc ▸ Int.sub_one_lt_floor x⟩

lemma c_u16_lt (x : ℚ) : c_u16 x < 65536 := Nat.mod_lt _ (by norm_num)

lemma u16_bytes_recompose {r : ℕ} (h : r < 65536) :
    r / 256 % 256 * 256 + r % 256 = r := by omega

lemma u32_bytes_recompose {o : ℕ} (h : o < 4294967296) :
    o / 16777216 % 256 * 16777216 + o / 65536 % 256 * 65536 +
      o / 256 % 256 * 256 + o % 256 = o := by omega

/-! ### Encode-then-decode composition lemmas -/

lemma e1_rpm_decode (v : Vehicle) :
    ENGINE1_GET_RPM (send_engine_data_1 v) = ((c_u16 (v.rpm / 0.25) : ℕ) : ℚ) * 0.25 := by
  simp only [ENGINE1_GET_RPM, CAN_GET_U16_BE, send_engine_data_1, List.getD, List.get?, Option.getD_some]
  rw [u16_bytes_recompose (c_u16_lt _)]

lemma e1_coolant_decode (v : Vehicle) :
    ENGINE1_GET_COOLANT (send_engine_data_1 v) = ((c_u8 (v.coolant_temp + 40) : ℕ) : ℤ) - 40 := by
  simp [ENGINE1_GET_COOLANT, CAN_GET_U8, send_engine_data_1, List.getD]

lemma e1_throttle_decode (v : Vehicle) :
    ENGINE1_GET_THROTTLE (send_engine_data_1 v) =
      ((c_u8 (v.throttle * 255 / 100) : ℕ) : ℚ) * 0.392157 := by
  simp [ENGINE1_GET_THROTTLE, CAN_GET_U8, send_engine_data_1, List.getD]

lemma e1_maf_decode (v : Vehicle) :
    ENGINE1_GET_MAF (send_engine_data_1 v) = ((c_u16 (v.maf / 0.01) : ℕ) : ℚ) * 0.01 := by
  simp only [ENGINE1_GET_MAF, CAN_GET_U16_BE, send_engine_data_1, List.getD, List.get?, Option.getD_some]
  rw [u16_bytes_recompose (c_u16_lt _)]

lemma e1_load_decode (v : Vehicle) :
    ENGINE1_GET_LOAD (send_engine_data_1 v) =
      ((c_u8 (v.engine_load * 255 / 100) : ℕ) : ℚ) * 100 / 255 := by
  simp [ENGINE1_GET_LOAD, CAN_GET_U8, send_engine_data_1, List.getD]

lemma trans_gear_decode (v : Vehicle) :
    TRANS_GET_GEAR (send_trans_data v) = int_u8 v.gear := by
  simp [TRANS_GET_GEAR, CAN_GET_U8, send_trans_data, List.getD]

lemma trans_fluid_decode (v : Vehicle) :
    TRANS_GET_FLUID_TEMP (send_trans_data v) = ((c_u8 (v.trans_temp + 40) : ℕ) : ℤ) - 40 := by
  simp [TRANS_GET_FLUID_TEMP, CAN_GET_U8, send_trans_data, List.getD]

lemma trans_speed_decode (v : Vehicle) :
    TRANS_GET_OUTPUT_RPM (send_trans_data v) = c_u16 v.vehicle_speed := by
  simp only [TRANS_GET_OUTPUT_RPM, CAN_GET_U16_BE, send_trans_data, List.getD, List.get?, Option.getD_some]
  exact u16_bytes_recompose (c_u16_lt _)

lemma bcm_fuel_decode (v : Vehicle) :
    BCM_GET_FUEL (send_bcm_data v) = ((c_u8 (v.fuel_level * 255 / 100) : ℕ) : ℚ) * 100 / 255 := by
  simp [BCM_GET_FUEL, CAN_GET_U8, send_bcm_data, List.getD]

lemma bcm_odometer_decode (v : Vehicle) (h : v.odometer < 4294967296) :
    BCM_GET_ODOMETER (send_bcm_data v) = v.odometer := by
  simp only [BCM_GET_ODOMETER, send_bcm_data, List.getD, List.get?, Option.getD_some]
  exact u32_bytes_recompose h

/-! ### Driving-cycle bounds -/

lemma sim_rpm_bounds (s : ℚ → ℚ) (hs : ∀ x, |s x| ≤ 1) (t : ℚ) {cycle : ℚ}
    (h1 : cycle < 60) : 750 ≤ sim_rpm s t cycle ∧ sim_rpm s t cycle ≤ 5000 := by
  have ha := abs_le.mp (hs (t * 2))
  have hb := abs_le.mp (hs (t * 0.5))
  unfold sim_rpm
  split_ifs with hc1 hc2 hc3
  · constructor <;> linarith
  · have hp0 : (0 : ℚ) ≤ (cycle - 10) / 15 := div_nonneg (by linarith) (by norm_num)
    have hp1 : (cycle - 10) / 15 < 1 := by rw [div_lt_one (by norm_num)]; linarith
    constructor <;> linarith
  · constructor <;> linarith
  · have hp0 : (0 : ℚ) ≤ (cycle - 45) / 15 := div_nonneg (by linarith) (by norm_num)
    have hp1 : (cycle - 45) / 15 < 1 := by rw [div_lt_one (by norm_num)]; linarith
    constructor <;> linarith

lemma sim_throttle_bounds (s : ℚ → ℚ) (hs : ∀ x, |s x| ≤ 1) (t : ℚ) {cycle : ℚ}
    (h1 : cycle < 60) : 0 ≤ sim_throttle s t cycle ∧ sim_throttle s t cycle ≤ 80 := by
  have hb := abs_le.mp (hs (t * 0.3))
  unfold sim_throttle
  split_ifs with hc1 hc2 hc3
  · constructor <;> linarith
  · have hp0 : (0 : ℚ) ≤ (cycle - 10) / 15 := div_nonneg (by linarith) (by norm_num)
    have hp1 : (cycle - 10) / 15 < 1 := by rw [div_lt_one (by norm_num)]; linarith
    constructor <;> linarith
  · constructor <;> linarith
  · have hp0 : (0 : ℚ) ≤ (cycle - 45) / 15 := div_nonneg (by linarith) (by norm_num)
    have hp1 : (cycle - 45) / 15 < 1 := by rw [div_lt_one (by norm_num)]; linarith
    constructor <;> linarith

lemma sim_speed_bounds (s : ℚ → ℚ) (hs : ∀ x, |s x| ≤ 1) (t : ℚ) {cycle : ℚ}
    (h1 : cycle < 60) : 0 ≤ sim_speed s t cycle ∧ sim_speed s t cycle ≤ 120 := by
  have hb := abs_le.mp (hs (t * 0.2))
  unfold sim_speed
  split_ifs with hc1 hc2 hc3
  · constructor <;> linarith
  · have hp0 : (0 : ℚ) ≤ (cycle - 10) / 15 := div_nonneg (by linarith) (by norm_num)
    have hp1 : (cycle - 10) / 15 < 1 := by rw [div_lt_one (by norm_num)]; linarith
    constructor <;> linarith
  · constructor <;> linarith
  · have hp0 : (0 : ℚ) ≤ (cycle - 45) / 15 := div_nonneg (by linarith) (by norm_num)
    have hp1 : (cycle - 45) / 15 < 1 := by rw [div_lt_one (by norm_num)]; linarith
    constructor <;> linarith

lemma sim_gear_bounds {cycle : ℚ} (h1 : cycle < 60) :
    0 ≤ sim_gear cycle ∧ sim_gear cycle ≤ 7 := by
  unfold sim_gear
  split_ifs with hc1 hc2 hg hc3 hg2
  · omega
  · omega
  · have hf : (0 : ℤ) ≤ ⌊(cycle - 10) / 15 * 5⌋ :=
      Int.floor_nonneg.mpr
        (mul_nonneg (div_nonneg (by linarith) (by norm_num)) (by norm_num))
    omega
  · omega
  · omega
  · have hf : (0 : ℤ) ≤ ⌊(cycle - 45) / 15 * 5⌋ :=
      Int.floor_nonneg.mpr
        (mul_nonneg (div_nonneg (by linarith) (by norm_num)) (by norm_num))
    omega

lemma sim_engine_load_bounds (s : ℚ → ℚ) (hs : ∀ x, |s x| ≤ 1) (t : ℚ) {cycle : ℚ}
    (h1 : cycle < 60) :
    10 ≤ sim_engine_load s t cycle ∧ sim_engine_load s t cycle ≤ 74 := by
  obtain ⟨h0, h80⟩ := sim_throttle_bounds s hs t h1
  unfold sim_engine_load
  constructor <;> nlinarith

/-! ### Tick invariants -/

lemma update_inBounds (s : ℚ → ℚ) (hs : ∀ x, |s x| ≤ 1) {dt : ℚ} (hdt : 0 ≤ dt)
    (v : Vehicle) (ht : 0 ≤ v.sim_time) : inBounds (update_simulation s dt v) := by
  have hcy1 : fmodQ (v.sim_time + dt) 60 < 60 := fmodQ_lt _ (by norm_num)
  have hfuel0 : 0 ≤ fmodQ ((v.sim_time + dt) * 0.01) 50 := fmodQ_nonneg _ (by norm_num)
  have hfuel1 : fmodQ ((v.sim_time + dt) * 0.01) 50 < 50 := fmodQ_lt _ (by norm_num)
  obtain ⟨hr0, hr1⟩ := sim_rpm_bounds s hs (v.sim_time + dt) hcy1
  obtain ⟨hth0, hth1⟩ := sim_throttle_bounds s hs (v.sim_time + dt) hcy1
  obtain ⟨hsp0, hsp1⟩ := sim_speed_bounds s hs (v.sim_time + dt) hcy1
  obtain ⟨hg0, hg1⟩ := sim_gear_bounds hcy1
  obtain ⟨hl0, hl1⟩ := sim_engine_load_bounds s hs (v.sim_time + dt) hcy1
  refine ⟨by simpa [update_simulation] using by linarith,
    by simpa [update_simulation] using by linarith,
    by simpa [update_simulation] using by linarith,
    by simpa [update_simulation] using by linarith,
    by simpa [update_simulation] using by linarith,
    by simpa [update_simulation] using by linarith,
    by simpa [update_simulation] using by linarith,
    by simpa [update_simulation] using by linarith,
    by simpa [update_simulation] using by linarith,
    by simpa [update_simulation] using by linarith,
    by simpa [update_simulation] using by linarith,
    by simpa [update_simulation] using hg0,
    by simpa [update_simulation] using hg1,
    by simpa [update_simulation] using Nat.mod_lt _ (by norm_num)⟩

lemma update_odometer_const (s : ℚ → ℚ) (hs : ∀ x, |s x| ≤ 1) (v : Vehicle)
    (ht : 0 ≤ v.sim_time) (hod : v.odometer < 4294967296) :
    (update_simulation s (1/1000) v).odometer = v.odometer := by
  have hcy1 : fmodQ (v.sim_time + 1/1000) 60 < 60 := fmodQ_lt _ (by norm_num)
  obtain ⟨hsp0, hsp1⟩ := sim_speed_bounds s hs (v.sim_time + 1/1000) hcy1
  have hx0 : 0 ≤ sim_speed s (v.sim_time + 1/1000) (fmodQ (v.sim_time + 1/1000) 60) *
      (1/1000) / 3600 := by positivity
  have hx1 : sim_speed s (v.sim_time + 1/1000) (fmodQ (v.sim_time + 1/1000) 60) *
      (1/1000) / 3600 < 1 := by
    rw [div_lt_one (by norm_num)]
    nlinarith
  have hfl : ⌊sim_speed s (v.sim_time + 1/1000) (fmodQ (v.sim_time + 1/1000) 60) *
      (1/1000) / 3600⌋ = 0 := Int.floor_eq_zero_iff.mpr ⟨hx0, hx1⟩
  show (v.odometer + c_u32 _) % 4294967296 = v.odometer
  rw [c_u32, hfl]
  simpa using Nat.mod_eq_of_lt hod

/-- Every state reachable by iterating the 1 ms tick from the initial state
is in bounds and still shows the initial odometer reading. -/
lemma iterate_tick_inv (s : ℚ → ℚ) (hs : ∀ x, |s x| ≤ 1) (n : ℕ) :
    inBounds ((update_simulation s (1/1000))^[n] init_vehicle) ∧
    ((update_simulation s (1/1000))^[n] init_vehicle).odometer = 45231 := by
  induction n with
  | zero => exact ⟨by norm_num [inBounds, init_vehicle], rfl⟩
  | succ n ih =>
    obtain ⟨hb, ho⟩ := ih
    rw [Function.iterate_succ_apply']
    have ht : 0 ≤ ((update_simulation s (1/1000))^[n] init_vehicle).sim_time := hb.1
    have hod : ((update_simulation s (1/1000))^[n] init_vehicle).odometer < 4294967296 := by
      omega
    exact ⟨update_inBounds s hs (by norm_num) _ ht,
      by rw [update_odometer_const s hs _ ht hod, ho]⟩

/-! ### Claim theorems -/

/-- C1: a Mode 01 request for PID 0x0C (engine RPM) received on 0x7DF or
0x7E0, carrying its PID byte (hence at least 2 payload bytes), against a
state with rpm = 2000 is answered by exactly one frame on 0x7E8 with
payload [0x04, 0x41, 0x0C, 0x1F, 0x40] (raw value 2000 * 4 = 0x1F40,
big-endian). -/
theorem c1_rpm_query_response (v : Vehicle) (f : canFrame)
    (hid : f.can_id = 0x7DF ∨ f.can_id = 0x7E0) (hdlc : 3 ≤ f.can_dlc)
    (hmode : f.data.getD 1 0 = 0x01) (hpid : f.data.getD 2 0 = 0x0C)
    (hrpm : v.rpm = 2000) :
    process_obd2_request v f = some (0x7E8, [0x04, 0x41, 0x0C, 0x1F, 0x40]) := by
  have h2 : ¬ f.can_dlc < 2 := by omega
  simp only [process_obd2_request, hid, h2, hdlc, hmode, hpid, if_true, if_false,
    or_true, true_or, if_pos, ite_true, ite_false, Option.some.injEq]
  norm_num [handle_obd2_mode01, hrpm, c_u16]
  decide

/-- C1 witness: the concrete broadcast request [0x02, 0x01, 0x0C] against
the initial state with rpm set to 2000. -/
theorem c1_rpm_query_response_witness :
    process_obd2_request { init_vehicle with rpm := 2000 } ⟨0x7DF, 3, [0x02, 0x01, 0x0C]⟩
      = some (0x7E8, [0x04, 0x41, 0x0C, 0x1F, 0x40]) :=
  c1_rpm_query_response _ _ (Or.inl rfl) (by norm_num) (by simp [List.getD])
    (by simp [List.getD]) rfl

/-- C2: any PID outside the supported set {0x00, 0x04, 0x05, 0x0C, 0x0D,
0x0F, 0x10, 0x11, 0x2F} is answered with the negative response frame
[0x03, 0x7F, 0x01, 0x12] on 0x7E8, for every vehicle state. -/
theorem c2_unsupported_pid_negative (v : Vehicle) (pid : ℕ)
    (h : pid ≠ 0x00 ∧ pid ≠ 0x04 ∧ pid ≠ 0x05 ∧ pid ≠ 0x0C ∧ pid ≠ 0x0D ∧
      pid ≠ 0x0F ∧ pid ≠ 0x10 ∧ pid ≠ 0x11 ∧ pid ≠ 0x2F) :
    handle_obd2_mode01 v pid = (0x7E8, [0x03, 0x7F, 0x01, 0x12]) := by
  obtain ⟨h0, h4, h5, hC, hD, hF, h10, h11, h2F⟩ := h
  simp [handle_obd2_mode01, h0, h4, h5, hC, hD, hF, h10, h11, h2F]

/-- C2 witness: PID 0xFF at the initial state. -/
theorem c2_unsupported_pid_negative_witness :
    handle_obd2_mode01 init_vehicle 0xFF = (0x7E8, [0x03, 0x7F, 0x01, 0x12]) :=
  c2_unsupported_pid_negative init_vehicle 0xFF (by decide)

/-- C3 counterexample: the claim says PID 0x20 gets the same fixed bitmap
reply as PID 0x00, but `handle_obd2_mode01` has no case for 0x20, so it
falls to the default negative response, which differs from the PID 0x00
reply. -/
theorem c3_counterexample :
    handle_obd2_mode01 init_vehicle 0x20 = (0x7E8, [0x03, 0x7F, 0x01, 0x12]) ∧
    handle_obd2_mode01 init_vehicle 0x20 ≠ handle_obd2_mode01 init_vehicle 0x00 := by
  norm_num [handle_obd2_mode01]

/-- C3 amended: for every vehicle state, PID 0x00 is answered with the
fixed bitmap [0x06, 0x41, 0x00, 0x18, 0x3E, 0x80, 0x00] independent of the
state, while PID 0x20 is answered with the negative response
[0x03, 0x7F, 0x01, 0x12], also independent of the state. -/
theorem c3_bitmap_pid00_negative_pid20 (v : Vehicle) :
    handle_obd2_mode01 v 0x00 = (0x7E8, [0x06, 0x41, 0x00, 0x18, 0x3E, 0x80, 0x00]) ∧
    handle_obd2_mode01 v 0x20 = (0x7E8, [0x03, 0x7F, 0x01, 0x12]) := by
  norm_num [handle_obd2_mode01]

/-- C7: a diagnostic frame with fewer than 2 payload bytes, or with a mode
other than 0x01, produces no response at all (`process_obd2_request` is a
pure function of the state, so the state is trivially unchanged; the C
function never writes `vehicle`). -/
theorem c7_invalid_request_dropped (v : Vehicle) (f : canFrame)
    (hid : f.can_id = 0x7DF ∨ f.can_id = 0x7E0)
    (h : f.can_dlc < 2 ∨ f.data.getD 1 0 ≠ 0x01) :
    process_obd2_request v f = none := by
  by_cases hdlc : f.can_dlc < 2
  · simp [process_obd2_request, hid, hdlc]
  · rcases h with h | h
    · exact absurd h hdlc
    · simp only [List.getD_eq_getElem?_getD] at h
      simp [process_obd2_request, hid, hdlc, h]

/-- C7 witness: a one-byte frame on 0x7DF. -/
theorem c7_invalid_request_dropped_witness :
    process_obd2_request init_vehicle ⟨0x7DF, 1, [0x01]⟩ = none :=
  c7_invalid_request_dropped init_vehicle _ (Or.inl rfl) (Or.inl (by norm_num))

/-- C9: a Mode 01 request with exactly 2 payload bytes (no PID byte)
is handled with PID defaulted to 0x00 and answered with the supported-PID
bitmap, not dropped and not answered negatively. -/
theorem c9_missing_pid_defaults_to_bitmap (v : Vehicle) (f : canFrame)
    (hid : f.can_id = 0x7DF ∨ f.can_id = 0x7E0) (hdlc : f.can_dlc = 2)
    (hmode : f.data.getD 1 0 = 0x01) :
    process_obd2_request v f
      = some (0x7E8, [0x06, 0x41, 0x00, 0x18, 0x3E, 0x80, 0x00]) := by
  have h2 : ¬ f.can_dlc < 2 := by omega
  have h3 : ¬ 3 ≤ f.can_dlc := by omega
  simp only [List.getD_eq_getElem?_getD] at hmode
  simp [process_obd2_request, handle_obd2_mode01, hid, h2, h3, hmode]

/-- C9 witness: the concrete two-byte request [0x01, 0x01] on 0x7E0. -/
theorem c9_missing_pid_defaults_to_bitmap_witness :
    process_obd2_request init_vehicle ⟨0x7E0, 2, [0x01, 0x01]⟩
      = some (0x7E8, [0x06, 0x41, 0x00, 0x18, 0x3E, 0x80, 0x00]) :=
  c9_missing_pid_defaults_to_bitmap init_vehicle _ (Or.inr rfl) rfl (by simp [List.getD])

/-- C5: every state reached by iterating the tick (with the 1 ms step the
main loop uses) from the initial state keeps every physical field within
its declared bounds — rpm in [0, 16383.75], throttle, engine_load and
fuel_level in [0, 100], vehicle_speed in [0, 255], gear in {0..7} — and
the odometer never decreases from one tick to the next.  The sine is any
function bounded by 1 in absolute value, as `sinf` is. -/
theorem c5_range_invariants (s : ℚ → ℚ) (hs : ∀ x, |s x| ≤ 1) (n : ℕ) :
    inBounds ((update_simulation s (1/1000))^[n] init_vehicle) ∧
    ((update_simulation s (1/1000))^[n] init_vehicle).odometer ≤
      ((update_simulation s (1/1000))^[n + 1] init_vehicle).odometer := by
  obtain ⟨hb, ho⟩ := iterate_tick_inv s hs n
  obtain ⟨hb2, ho2⟩ := iterate_tick_inv s hs (n + 1)
  exact ⟨hb, by rw [ho, ho2]⟩

/-- C5 witness: two ticks with the all-zero sine stand-in. -/
theorem c5_range_invariants_witness :
    inBounds ((update_simulation zero_wave (1/1000))^[2] init_vehicle) ∧
    ((update_simulation zero_wave (1/1000))^[2] init_vehicle).odometer ≤
      ((update_simulation zero_wave (1/1000))^[2 + 1] init_vehicle).odometer :=
  c5_range_invariants zero_wave (fun x => by simp [zero_wave]) 2

/-- C10: with the 1 ms tick of the main loop and the speed bound that every
reachable state satisfies, the per-tick odometer increment
trunc(speed * dt / 3600) is always zero, so the odometer reads 45231 in
every reachable state. -/
theorem c10_odometer_frozen (s : ℚ → ℚ) (hs : ∀ x, |s x| ≤ 1) (n : ℕ) :
    ((update_simulation s (1/1000))^[n] init_vehicle).odometer = 45231 :=
  (iterate_tick_inv s hs n).2

/-- C10 witness: three ticks with the all-zero sine stand-in. -/
theorem c10_odometer_frozen_witness :
    ((update_simulation zero_wave (1/1000))^[3] init_vehicle).odometer = 45231 :=
  c10_odometer_frozen zero_wave (fun x => by simp [zero_wave]) 3

/-- C4 counterexample: the claim asks for coolant (and fluid) temperature to
round-trip exactly, but the encode truncates the float to a byte, so the
in-range state with coolant_temp = 85.5 decodes back to 85, not 85.5. -/
theorem c4_exact_temperature_counterexample :
    inRangeState { init_vehicle with coolant_temp := 85.5 } ∧
    ((ENGINE1_GET_COOLANT (send_engine_data_1
        { init_vehicle with coolant_temp := 85.5 }) : ℤ) : ℚ)
      ≠ ({ init_vehicle with coolant_temp := 85.5 } : Vehicle).coolant_temp := by
  constructor
  · norm_num [inRangeState, init_vehicle]
  · rw [e1_coolant_decode]
    norm_num [c_u8, init_vehicle]

/-- C4 amended: for every in-range vehicle state, decode-of-encode returns
rpm within 0.25, maf within 0.01, throttle/engine_load/fuel_level within
100/255, coolant and fluid temperatures and vehicle_speed within 1 (their
byte quantization steps — not exactly, because the state fields are floats
and the encodes truncate), and gear and odometer exactly (they are
integers in the state). -/
theorem c4_roundtrip_within_quantization (v : Vehicle) (h : inRangeState v) :
    |ENGINE1_GET_RPM (send_engine_data_1 v) - v.rpm| ≤ 0.25 ∧
    |((ENGINE1_GET_COOLANT (send_engine_data_1 v) : ℤ) : ℚ) - v.coolant_temp| ≤ 1 ∧
    |ENGINE1_GET_THROTTLE (send_engine_data_1 v) - v.throttle| ≤ 100/255 ∧
    |ENGINE1_GET_MAF (send_engine_data_1 v) - v.maf| ≤ 0.01 ∧
    |ENGINE1_GET_LOAD (send_engine_data_1 v) - v.engine_load| ≤ 100/255 ∧
    ((TRANS_GET_GEAR (send_trans_data v) : ℕ) : ℤ) = v.gear ∧
    |((TRANS_GET_FLUID_TEMP (send_trans_data v) : ℤ) : ℚ) - v.trans_temp| ≤ 1 ∧
    |((TRANS_GET_OUTPUT_RPM (send_trans_data v) : ℕ) : ℚ) - v.vehicle_speed| ≤ 1 ∧
    |BCM_GET_FUEL (send_bcm_data v) - v.fuel_level| ≤ 100/255 ∧
    BCM_GET_ODOMETER (send_bcm_data v) = v.odometer := by
  obtain ⟨hr0, hr1, hc0, hc1, ht0, ht1, hm0, hm1, hl0, hl1, hg0, hg1,
    hft0, hft1, hf0, hf1, hodo, hv0, hv1⟩ := h
  refine ⟨?_, ?_, ?_, ?_, ?_, ?_, ?_, ?_, ?_, bcm_odometer_decode v hodo⟩
  · rw [e1_rpm_decode]
    have hx0 : 0 ≤ v.rpm / 0.25 := div_nonneg hr0 (by norm_num)
    have hx1 : v.rpm / 0.25 < 65536 := by rw [div_lt_iff (by norm_num)]; linarith
    obtain ⟨hle, hgt⟩ := c_u16_bounds hx0 hx1
    have hid : v.rpm / 0.25 * 0.25 = v.rpm := div_mul_cancel₀ _ (by norm_num)
    rw [abs_le]
    constructor <;> linarith
  · rw [e1_coolant_decode]
    have hx0 : 0 ≤ v.coolant_temp + 40 := by linarith
    have hx1 : v.coolant_temp + 40 < 256 := by linarith
    obtain ⟨hle, hgt⟩ := c_u8_bounds hx0 hx1
    push_cast
    rw [abs_le]
    constructor <;> linarith
  · rw [e1_throttle_decode]
    have hx0 : 0 ≤ v.throttle * 255 / 100 :=
      div_nonneg (mul_nonneg ht0 (by norm_num)) (by norm_num)
    have hx1 : v.throttle * 255 / 100 < 256 := by rw [div_lt_iff (by norm_num)]; linarith
    obtain ⟨hle, hgt⟩ := c_u8_bounds hx0 hx1
    have hA0 : (0 : ℚ) ≤ ((c_u8 (v.throttle * 255 / 100) : ℕ) : ℚ) := Nat.cast_nonneg _
    have hid : v.throttle * 255 / 100 * (100/255) = v.throttle := by ring
    rw [abs_le]
    constructor <;> linarith
  · rw [e1_maf_decode]
    have hx0 : 0 ≤ v.maf / 0.01 := div_nonneg hm0 (by norm_num)
    have hx1 : v.maf / 0.01 < 65536 := by rw [div_lt_iff (by norm_num)]; linarith
    obtain ⟨hle, hgt⟩ := c_u16_bounds hx0 hx1
    have hid : v.maf / 0.01 * 0.01 = v.maf := div_mul_cancel₀ _ (by norm_num)
    rw [abs_le]
    constructor <;> linarith
  · rw [e1_load_decode]
    have hx0 : 0 ≤ v.engine_load * 255 / 100 :=
      div_nonneg (mul_nonneg hl0 (by norm_num)) (by norm_num)
    have hx1 : v.engine_load * 255 / 100 < 256 := by
      rw [div_lt_iff (by norm_num)]; linarith
    obtain ⟨hle, hgt⟩ := c_u8_bounds hx0 hx1
    have hid : v.engine_load * 255 / 100 * (100/255) = v.engine_load := by ring
    rw [abs_le]
    constructor <;> linarith
  · rw [trans_gear_decode]
    unfold int_u8
    omega
  · rw [trans_fluid_decode]
    have hx0 : 0 ≤ v.trans_temp + 40 := by linarith
    have hx1 : v.trans_temp + 40 < 256 := by linarith
    obtain ⟨hle, hgt⟩ := c_u8_bounds hx0 hx1
    push_cast
    rw [abs_le]
    constructor <;> linarith
  · rw [trans_speed_decode]
    obtain ⟨hle, hgt⟩ := c_u16_bounds hv0 (by linarith)
    rw [abs_le]
    constructor <;> linarith
  · rw [bcm_fuel_decode]
    have hx0 : 0 ≤ v.fuel_level * 255 / 100 :=
      div_nonneg (mul_nonneg hf0 (by norm_num)) (by norm_num)
    have hx1 : v.fuel_level * 255 / 100 < 256 := by
      rw [div_lt_iff (by norm_num)]; linarith
    obtain ⟨hle, hgt⟩ := c_u8_bounds hx0 hx1
    have hid : v.fuel_level * 255 / 100 * (100/255) = v.fuel_level := by ring
    rw [abs_le]
    constructor <;> linarith

/-- C4 witness: the amended round-trip bounds at the initial state. -/
theorem c4_roundtrip_within_quantization_witness :
    |ENGINE1_GET_RPM (send_engine_data_1 init_vehicle) - init_vehicle.rpm| ≤ 0.25 ∧
    |((ENGINE1_GET_COOLANT (send_engine_data_1 init_vehicle) : ℤ) : ℚ) -
      init_vehicle.coolant_temp| ≤ 1 ∧
    |ENGINE1_GET_THROTTLE (send_engine_data_1 init_vehicle) -
      init_vehicle.throttle| ≤ 100/255 ∧
    |ENGINE1_GET_MAF (send_engine_data_1 init_vehicle) - init_vehicle.maf| ≤ 0.01 ∧
    |ENGINE1_GET_LOAD (send_engine_data_1 init_vehicle) -
      init_vehicle.engine_load| ≤ 100/255 ∧
    ((TRANS_GET_GEAR (send_trans_data init_vehicle) : ℕ) : ℤ) = init_vehicle.gear ∧
    |((TRANS_GET_FLUID_TEMP (send_trans_data init_vehicle) : ℤ) : ℚ) -
      init_vehicle.trans_temp| ≤ 1 ∧
    |((TRANS_GET_OUTPUT_RPM (send_trans_data init_vehicle) : ℕ) : ℚ) -
      init_vehicle.vehicle_speed| ≤ 1 ∧
    |BCM_GET_FUEL (send_bcm_data init_vehicle) - init_vehicle.fuel_level| ≤ 100/255 ∧
    BCM_GET_ODOMETER (send_bcm_data init_vehicle) = init_vehicle.odometer :=
  c4_roundtrip_within_quantization init_vehicle (by norm_num [inRangeState, init_vehicle])

/-- C6 counterexample: the claim says an out-of-range value saturates at the
field maximum, but with rpm = 20000 the encoded raw RPM is
80000 mod 65536 = 14464, a modular wrap, not the saturated 65535. -/
theorem c6_no_saturation_counterexample :
    CAN_GET_U16_BE (send_engine_data_1 { init_vehicle with rpm := 20000 }) 0 = 14464 ∧
    (14464 : ℕ) = 80000 % 65536 ∧ (14464 : ℕ) ≠ 65535 := by
  refine ⟨?_, by norm_num, by norm_num⟩
  simp only [CAN_GET_U16_BE, send_engine_data_1, List.getD, List.get?, Option.getD_some]
  norm_num [c_u16, init_vehicle]
  decide

/-- C6 amended: the encode performs no clamping at all — for every state
with nonnegative rpm the raw 16-bit RPM field equals the truncated
rpm / 0.25 reduced modulo 2^16 (wraparound model of the C float-to-u16
cast, which the C standard leaves undefined out of range), never a
saturated maximum. -/
theorem c6_encode_wraps_modulo (v : Vehicle) (h : 0 ≤ v.rpm) :
    CAN_GET_U16_BE (send_engine_data_1 v) 0 = (⌊v.rpm / 0.25⌋).toNat % 65536 := by
  simp only [CAN_GET_U16_BE, send_engine_data_1, List.getD, List.get?, Option.getD_some]
  rw [u16_bytes_recompose (c_u16_lt _)]
  rfl

/-- C6 witness: the modular encode equation at the out-of-range rpm 20000. -/
theorem c6_encode_wraps_modulo_witness :
    CAN_GET_U16_BE (send_engine_data_1 { init_vehicle with rpm := 20000 }) 0
      = (⌊(20000 : ℚ) / 0.25⌋).toNat % 65536 :=
  c6_encode_wraps_modulo { init_vehicle with rpm := 20000 } (by norm_num)

/-- C8 counterexample: at the t = 25 phase boundary (accelerate to cruise)
two consecutive 1 ms ticks drop rpm by more than 2400 rpm and
vehicle_speed by more than 19 km/h — a discontinuous set-point jump, far
beyond one tick's worth of change (about 0.28 rpm and 0.008 km/h). -/
theorem c8_phase_jump_counterexample :
    2400 < (update_simulation zero_wave (1/1000)
        { init_vehicle with sim_time := 49997/2000 }).rpm -
      (update_simulation zero_wave (1/1000) (update_simulation zero_wave (1/1000)
        { init_vehicle with sim_time := 49997/2000 })).rpm ∧
    19 < (update_simulation zero_wave (1/1000)
        { init_vehicle with sim_time := 49997/2000 }).vehicle_speed -
      (update_simulation zero_wave (1/1000) (update_simulation zero_wave (1/1000)
        { init_vehicle with sim_time := 49997/2000 })).vehicle_speed := by
  norm_num [update_simulation, sim_rpm, sim_speed, fmodQ, zero_wave, init_vehicle]

/-- C8 amended: across the t = 10 and t = 45 phase boundaries (within the
first cycle) consecutive 1 ms ticks change rpm by at most 250 and
vehicle_speed by at most 11 — bounded by the oscillation amplitudes of the
adjacent phases; the t = 25 boundary, by contrast, jumps discontinuously
(see the counterexample). -/
theorem c8_boundary_jump_bounded (s : ℚ → ℚ) (hs : ∀ x, |s x| ≤ 1) (v0 : Vehicle)
    (hcross :
      (0 ≤ v0.sim_time + 1/1000 ∧ v0.sim_time + 1/1000 < 10 ∧
        10 ≤ v0.sim_time + 1/1000 + 1/1000) ∨
      (25 ≤ v0.sim_time + 1/1000 ∧ v0.sim_time + 1/1000 < 45 ∧
        45 ≤ v0.sim_time + 1/1000 + 1/1000)) :
    |(update_simulation s (1/1000) (update_simulation s (1/1000) v0)).rpm -
      (update_simulation s (1/1000) v0).rpm| ≤ 250 ∧
    |(update_simulation s (1/1000) (update_simulation s (1/1000) v0)).vehicle_speed -
      (update_simulation s (1/1000) v0).vehicle_speed| ≤ 11 := by
  simp only [update_simulation]
  rcases hcross with ⟨h0, h1, h2⟩ | ⟨h0, h1, h2⟩
  · have e1 : fmodQ (v0.sim_time + 1/1000) 60 = v0.sim_time + 1/1000 :=
      fmodQ_eq_self h0 (by linarith)
    have e2 : fmodQ (v0.sim_time + 1/1000 + 1/1000) 60 =
        v0.sim_time + 1/1000 + 1/1000 := fmodQ_eq_self (by linarith) (by linarith)
    have hb : ¬ (v0.sim_time + 1/1000 + 1/1000 < 10) := by linarith
    have hc : v0.sim_time + 1/1000 + 1/1000 < 25 := by linarith
    simp only [sim_rpm, sim_speed, e1, e2, h1, hb, hc, if_true, if_false, ite_true,
      ite_false, eq_self_iff_true, not_false_iff]
    have hsa := abs_le.mp (hs ((v0.sim_time + 1/1000) * 2))
    have hp0 : 0 ≤ (v0.sim_time + 1/1000 + 1/1000 - 10) / 15 :=
      div_nonneg (by linarith) (by norm_num)
    have hp1 : (v0.sim_time + 1/1000 + 1/1000 - 10) / 15 < 1/15000 := by
      rw [div_lt_iff (by norm_num)]
      linarith
    constructor
    · rw [abs_le]
      constructor <;> linarith
    · rw [abs_le]
      constructor <;> linarith
  · have e1 : fmodQ (v0.sim_time + 1/1000) 60 = v0.sim_time + 1/1000 :=
      fmodQ_eq_self (by linarith) (by linarith)
    have e2 : fmodQ (v0.sim_time + 1/1000 + 1/1000) 60 =
        v0.sim_time + 1/1000 + 1/1000 := fmodQ_eq_self (by linarith) (by linarith)
    have hA1 : ¬ (v0.sim_time + 1/1000 < 10) := by linarith
    have hA2 : ¬ (v0.sim_time + 1/1000 < 25) := by linarith
    have hB1 : ¬ (v0.sim_time + 1/1000 + 1/1000 < 10) := by linarith
    have hB2 : ¬ (v0.sim_time + 1/1000 + 1/1000 < 25) := by linarith
    have hB3 : ¬ (v0.sim_time + 1/1000 + 1/1000 < 45) := by linarith
    simp only [sim_rpm, sim_speed, e1, e2, h1, hA1, hA2, hB1, hB2, hB3, if_true,
      if_false, ite_true, ite_false, not_false_iff]
    have hsa := abs_le.mp (hs ((v0.sim_time + 1/1000) * 0.5))
    have hsb := abs_le.mp (hs ((v0.sim_time + 1/1000) * 0.2))
    have hp0 : 0 ≤ (v0.sim_time + 1/1000 + 1/1000 - 45) / 15 :=
      div_nonneg (by linarith) (by norm_num)
    have hp1 : (v0.sim_time + 1/1000 + 1/1000 - 45) / 15 < 1/15000 := by
      rw [div_lt_iff (by norm_num)]
      linarith
    constructor
    · rw [abs_le]
      constructor <;> linarith
    · rw [abs_le]
      constructor <;> linarith

/-- C8 witness: a tick pair straddling the t = 10 boundary, with the
all-zero sine stand-in. -/
theorem c8_boundary_jump_bounded_witness :
    |(update_simulation zero_wave (1/1000) (update_simulation zero_wave (1/1000)
        { init_vehicle with sim_time := 19997/2000 })).rpm -
      (update_simulation zero_wave (1/1000)
        { init_vehicle with sim_time := 19997/2000 }).rpm| ≤ 250 ∧
    |(update_simulation zero_wave (1/1000) (update_simulation zero_wave (1/1000)
        { init_vehicle with sim_time := 19997/2000 })).vehicle_speed -
      (update_simulation zero_wave (1/1000)
        { init_vehicle with sim_time := 19997/2000 }).vehicle_speed| ≤ 11 :=
  c8_boundary_jump_bounded zero_wave (fun x => by simp [zero_wave]) _
    (Or.inl (by norm_num [init_vehicle]))

end VTU
